import Mathlib

/-!
Verification of the block-streaming chunking/coalescing configuration
resolvers of `clawdbot` (src/unnamed/part_000).

Numbers appearing in the configuration snapshot are modelled as rationals
(they may be fractional; `Math.floor` is `⌊·⌋ : ℚ → ℤ`).  Resolved
character counts and the provider hard limit are integers.  External
collaborators (the provider-plugin registry, the provider-id normalizer,
the account normalizer and the text-limit resolver) live outside the
shown source and are modelled abstractly as fields of an `Env` record,
following the interface contracts of the specification.
-/

namespace Clawdbot

/-- Break preference of a resolved chunking: one of paragraph, newline,
sentence. -/
inductive BreakPreference where
  | paragraph
  | newline
  | sentence
deriving DecidableEq, Repr

/-- Config block `blockStreamingChunk` / `draftChunk`: optional numeric
`minChars` / `maxChars` and an optional raw break-preference string
(anything other than "newline"/"sentence" falls back to paragraph). -/
structure BlockStreamingChunkConfig where
  minChars : Option ℚ
  maxChars : Option ℚ
  breakPreference : Option String
deriving DecidableEq, Repr

/-- Config block `blockStreamingCoalesce` (`BlockStreamingCoalesceConfig`
in src): optional numeric `minChars`, `maxChars`, `idleMs`. -/
structure BlockStreamingCoalesceConfig where
  minChars : Option ℚ
  maxChars : Option ℚ
  idleMs : Option ℚ
deriving DecidableEq, Repr

/-- Per-account entry of a provider section: an optional
`blockStreamingCoalesce` override, and (used by the telegram draft
resolver) an optional `draftChunk` block. -/
structure AccountBlockStreamingConfig where
  blockStreamingCoalesce : Option BlockStreamingCoalesceConfig
  draftChunk : Option BlockStreamingChunkConfig
deriving DecidableEq, Repr

/-- A provider-keyed section of the configuration
(`ProviderBlockStreamingConfig` in src, plus the telegram `draftChunk`
field): a provider-level `blockStreamingCoalesce`, a provider-level
`draftChunk`, and a record of per-account entries (modelled as an
association list). -/
structure ProviderBlockStreamingConfig where
  blockStreamingCoalesce : Option BlockStreamingCoalesceConfig
  draftChunk : Option BlockStreamingChunkConfig
  accounts : Option (List (String × AccountBlockStreamingConfig))
deriving DecidableEq, Repr

/-- `agents.defaults.*`: agent-level global defaults. -/
structure AgentDefaultsConfig where
  blockStreamingChunk : Option BlockStreamingChunkConfig
  blockStreamingCoalesce : Option BlockStreamingCoalesceConfig
deriving DecidableEq, Repr

/-- `agents` subtree of the configuration. -/
structure AgentsConfig where
  defaults : Option AgentDefaultsConfig
deriving DecidableEq, Repr

/-- The configuration snapshot (`ClawdbotConfig`): the `agents` subtree
plus the provider-keyed sections reached by the dynamic
`(cfg as Record<string, unknown>)[providerKey]` lookup (and by
`cfg?.telegram`), modelled as an association list from provider key to
section. -/
structure ClawdbotConfig where
  agents : Option AgentsConfig
  providerSections : List (String × ProviderBlockStreamingConfig)
deriving DecidableEq, Repr

/-- Provider plugin `outbound` capabilities: the advertised
`textChunkLimit`. -/
structure ProviderPluginOutbound where
  textChunkLimit : Option ℤ
deriving DecidableEq, Repr

/-- Provider plugin `streaming.blockStreamingCoalesceDefaults`. -/
structure CoalesceDefaults where
  minChars : Option ℚ
  idleMs : Option ℚ
deriving DecidableEq, Repr

/-- Provider plugin `streaming` capabilities. -/
structure ProviderPluginStreaming where
  blockStreamingCoalesceDefaults : Option CoalesceDefaults
deriving DecidableEq, Repr

/-- A provider plugin as seen by this module. -/
structure ProviderPlugin where
  outbound : Option ProviderPluginOutbound
  streaming : Option ProviderPluginStreaming
deriving DecidableEq, Repr

/-- Modelled from the spec: the external collaborators imported by the
module but not part of the shown source — `PROVIDER_IDS` (registry),
`INTERNAL_MESSAGE_PROVIDER` (sentinel), `normalizeProviderId` and
`getProviderPlugin` (plugin registry), `normalizeAccountId` (account
normalizer: absent account maps to a canonical default key), and
`resolveTextChunkLimit` (text-limit resolver:
`resolve(config, providerKey, accountId, fallbackLimit) → int`,
applying account/provider overrides on top of a supplied fallback).
They are opaque to this module, so they are fields of an environment
record quantified over in the theorems. -/
structure Env where
  providerIds : List String
  internalMessageProvider : String
  normalizeProviderId : String → String
  getProviderPlugin : String → Option ProviderPlugin
  normalizeAccountId : Option String → String
  resolveTextChunkLimit :
    Option ClawdbotConfig → Option String → Option String → Option ℤ → ℤ

/-- `DEFAULT_BLOCK_STREAM_MIN = 800`. -/
def DEFAULT_BLOCK_STREAM_MIN : ℚ := 800

/-- `DEFAULT_BLOCK_STREAM_MAX = 1200`. -/
def DEFAULT_BLOCK_STREAM_MAX : ℚ := 1200

/-- `DEFAULT_BLOCK_STREAM_COALESCE_IDLE_MS = 1000`. -/
def DEFAULT_BLOCK_STREAM_COALESCE_IDLE_MS : ℚ := 1000

/-- `DEFAULT_TELEGRAM_DRAFT_STREAM_MIN = 200`. -/
def DEFAULT_TELEGRAM_DRAFT_STREAM_MIN : ℚ := 200

/-- `DEFAULT_TELEGRAM_DRAFT_STREAM_MAX = 800`. -/
def DEFAULT_TELEGRAM_DRAFT_STREAM_MAX : ℚ := 800

/-- `BLOCK_CHUNK_PROVIDERS = new Set([...PROVIDER_IDS,
INTERNAL_MESSAGE_PROVIDER])`. -/
def BLOCK_CHUNK_PROVIDERS (env : Env) : List String :=
  env.providerIds ++ [env.internalMessageProvider]

/-- Executable model of JavaScript `String.prototype.toLowerCase`,
mapping `Char.toLower` over the character list. -/
def jsToLowerCase (s : String) : String :=
  String.mk (s.data.map Char.toLower)

/-- Executable model of JavaScript `String.prototype.trim`, dropping
leading and trailing whitespace characters. -/
def jsTrim (s : String) : String :=
  String.mk
    (((s.data.dropWhile Char.isWhitespace).reverse.dropWhile
        Char.isWhitespace).reverse)

/-- `normalizeChunkProvider`: `!provider` (absent or empty string) gives
no provider; otherwise trim + lowercase and test membership in
`BLOCK_CHUNK_PROVIDERS`. -/
def normalizeChunkProvider (env : Env) (provider : Option String) :
    Option String :=
  match provider with
  | none => none
  | some s =>
    if s = "" then none
    else
      let cleaned := jsToLowerCase (jsTrim s)
      if cleaned ∈ BLOCK_CHUNK_PROVIDERS env then some cleaned else none

/-- `providerKey ? normalizeProviderId(providerKey) : null` (an empty
provider key is falsy in JS). -/
def textChunkProviderId (env : Env) (providerKey : Option String) :
    Option String :=
  match providerKey with
  | none => none
  | some pk => if pk = "" then none else some (env.normalizeProviderId pk)

/-- `providerId ? getProviderPlugin(providerId)?.outbound?.textChunkLimit
: undefined`. -/
def providerChunkLimitOf (env : Env) (providerId : Option String) :
    Option ℤ :=
  providerId.bind fun pid =>
    ((env.getProviderPlugin pid).bind (·.outbound)).bind (·.textChunkLimit)

/-- The `textLimit` computed identically at the top of
`resolveBlockStreamingChunking` and `resolveBlockStreamingCoalescing`:
normalize the provider, look up the plugin chunk limit, and call the
external text-limit resolver with it as fallback. -/
def chunkingTextLimit (env : Env) (cfg : Option ClawdbotConfig)
    (provider : Option String) (accountId : Option String) : ℤ :=
  let providerKey := normalizeChunkProvider env provider
  let providerId := textChunkProviderId env providerKey
  let providerChunkLimit := providerChunkLimitOf env providerId
  env.resolveTextChunkLimit cfg providerKey accountId providerChunkLimit

/-- `cfg?.agents?.defaults?.blockStreamingChunk`. -/
def agentChunkCfg (cfg : Option ClawdbotConfig) :
    Option BlockStreamingChunkConfig :=
  ((cfg.bind (·.agents)).bind (·.defaults)).bind (·.blockStreamingChunk)

/-- `cfg?.agents?.defaults?.blockStreamingCoalesce`. -/
def agentCoalesceCfg (cfg : Option ClawdbotConfig) :
    Option BlockStreamingCoalesceConfig :=
  ((cfg.bind (·.agents)).bind (·.defaults)).bind (·.blockStreamingCoalesce)

/-- The raw break-preference string resolves to `newline` or `sentence`
only on exactly those strings; anything else (or absent) is
`paragraph`. -/
def resolveBreakPreference (bp : Option String) : BreakPreference :=
  match bp with
  | some s =>
    if s = "newline" then BreakPreference.newline
    else if s = "sentence" then BreakPreference.sentence
    else BreakPreference.paragraph
  | none => BreakPreference.paragraph

/-- Resolved chunking `{minChars, maxChars, breakPreference}`. -/
structure BlockStreamingChunking where
  minChars : ℤ
  maxChars : ℤ
  breakPreference : BreakPreference
deriving DecidableEq, Repr

/-- Resolved coalescing `{minChars, maxChars, idleMs, joiner}`
(`BlockStreamingCoalescing` in src). -/
structure BlockStreamingCoalescing where
  minChars : ℤ
  maxChars : ℤ
  idleMs : ℤ
  joiner : String
deriving DecidableEq, Repr

/-- `resolveBlockStreamingChunking(cfg, provider, accountId)`. -/
def resolveBlockStreamingChunking (env : Env) (cfg : Option ClawdbotConfig)
    (provider : Option String) (accountId : Option String) :
    BlockStreamingChunking :=
  let textLimit := chunkingTextLimit env cfg provider accountId
  let chunkCfg := agentChunkCfg cfg
  let maxRequested :=
    max 1 ⌊(chunkCfg.bind (·.maxChars)).getD DEFAULT_BLOCK_STREAM_MAX⌋
  let maxChars := max 1 (min maxRequested textLimit)
  let minFallback := DEFAULT_BLOCK_STREAM_MIN
  let minRequested := max 1 ⌊(chunkCfg.bind (·.minChars)).getD minFallback⌋
  let minChars := min minRequested maxChars
  let breakPreference := resolveBreakPreference (chunkCfg.bind (·.breakPreference))
  { minChars := minChars, maxChars := maxChars, breakPreference := breakPreference }

/-- The `textLimit` of `resolveTelegramDraftStreamingChunking`: the
provider key is hard-wired to "telegram" and the plugin is looked up
directly. -/
def telegramTextLimit (env : Env) (cfg : Option ClawdbotConfig)
    (accountId : Option String) : ℤ :=
  let providerChunkLimit :=
    ((env.getProviderPlugin "telegram").bind (·.outbound)).bind (·.textChunkLimit)
  env.resolveTextChunkLimit cfg (some "telegram") accountId providerChunkLimit

/-- `cfg?.telegram?.accounts?.[normalizedAccountId]?.draftChunk ??
cfg?.telegram?.draftChunk`. -/
def telegramDraftCfg (env : Env) (cfg : Option ClawdbotConfig)
    (accountId : Option String) : Option BlockStreamingChunkConfig :=
  let normalizedAccountId := env.normalizeAccountId accountId
  let telegramCfg := cfg.bind fun c => c.providerSections.lookup "telegram"
  (((telegramCfg.bind (·.accounts)).bind
      (List.lookup normalizedAccountId)).bind (·.draftChunk)).orElse
    fun _ => telegramCfg.bind (·.draftChunk)

/-- `resolveTelegramDraftStreamingChunking(cfg, accountId)`. -/
def resolveTelegramDraftStreamingChunking (env : Env)
    (cfg : Option ClawdbotConfig) (accountId : Option String) :
    BlockStreamingChunking :=
  let textLimit := telegramTextLimit env cfg accountId
  let draftCfg := telegramDraftCfg env cfg accountId
  let maxRequested :=
    max 1 ⌊(draftCfg.bind (·.maxChars)).getD DEFAULT_TELEGRAM_DRAFT_STREAM_MAX⌋
  let maxChars := max 1 (min maxRequested textLimit)
  let minRequested :=
    max 1 ⌊(draftCfg.bind (·.minChars)).getD DEFAULT_TELEGRAM_DRAFT_STREAM_MIN⌋
  let minChars := min minRequested maxChars
  let breakPreference := resolveBreakPreference (draftCfg.bind (·.breakPreference))
  { minChars := minChars, maxChars := maxChars, breakPreference := breakPreference }

/-- `resolveProviderBlockStreamingCoalesce({cfg, providerKey, accountId})`:
find the provider section, then
`accountCfg?.blockStreamingCoalesce ?? typed.blockStreamingCoalesce` —
the account-level block, when present, fully shadows the provider-level
block. -/
def resolveProviderBlockStreamingCoalesce (env : Env)
    (cfg : Option ClawdbotConfig) (providerKey : Option String)
    (accountId : Option String) : Option BlockStreamingCoalesceConfig :=
  match cfg, providerKey with
  | some c, some pk =>
    match c.providerSections.lookup pk with
    | none => none
    | some providerCfg =>
      let normalizedAccountId := env.normalizeAccountId accountId
      let accountCfg := providerCfg.accounts.bind (List.lookup normalizedAccountId)
      (accountCfg.bind (·.blockStreamingCoalesce)).orElse
        fun _ => providerCfg.blockStreamingCoalesce
  | _, _ => none

/-- `providerId ? getProviderPlugin(providerId)?.streaming?.
blockStreamingCoalesceDefaults : undefined`. -/
def coalescingProviderDefaults (env : Env) (providerId : Option String) :
    Option CoalesceDefaults :=
  providerId.bind fun pid =>
    ((env.getProviderPlugin pid).bind (·.streaming)).bind
      (·.blockStreamingCoalesceDefaults)

/-- `providerCfg ?? cfg?.agents?.defaults?.blockStreamingCoalesce`: the
coalescing config block used by the coalescing resolver. -/
def selectedCoalesceCfg (env : Env) (cfg : Option ClawdbotConfig)
    (providerKey : Option String) (accountId : Option String) :
    Option BlockStreamingCoalesceConfig :=
  (resolveProviderBlockStreamingCoalesce env cfg providerKey accountId).orElse
    fun _ => agentCoalesceCfg cfg

/-- The joiner is chosen from the chunking break preference:
sentence → " ", newline → "\n", anything else (including an absent
chunking result) → "\n\n". -/
def joinerFor (bp : Option BreakPreference) : String :=
  match bp with
  | some BreakPreference.sentence => " "
  | some BreakPreference.newline => "\n"
  | _ => "\n\n"

/-- `resolveBlockStreamingCoalescing(cfg, provider, accountId, chunking)`.
The declared result type is optional, matching the source signature;
the body, like the source body, ends in an unconditional `return`. -/
def resolveBlockStreamingCoalescing (env : Env) (cfg : Option ClawdbotConfig)
    (provider : Option String) (accountId : Option String)
    (chunking : Option BlockStreamingChunking) :
    Option BlockStreamingCoalescing :=
  let providerKey := normalizeChunkProvider env provider
  let providerId := textChunkProviderId env providerKey
  let textLimit := chunkingTextLimit env cfg provider accountId
  let providerDefaults := coalescingProviderDefaults env providerId
  let coalesceCfg := selectedCoalesceCfg env cfg providerKey accountId
  let minRequested :=
    max 1 ⌊(coalesceCfg.bind (·.minChars)).getD
      ((providerDefaults.bind (·.minChars)).getD
        ((chunking.map fun c => (c.minChars : ℚ)).getD
          DEFAULT_BLOCK_STREAM_MIN))⌋
  let maxRequested :=
    max 1 ⌊(coalesceCfg.bind (·.maxChars)).getD (textLimit : ℚ)⌋
  let maxChars := max 1 (min maxRequested textLimit)
  let minChars := min minRequested maxChars
  let idleMs :=
    max 0 ⌊(coalesceCfg.bind (·.idleMs)).getD
      ((providerDefaults.bind (·.idleMs)).getD
        DEFAULT_BLOCK_STREAM_COALESCE_IDLE_MS)⌋
  let preference := (chunking.map (·.breakPreference)).getD BreakPreference.paragraph
  let joiner := joinerFor (some preference)
  some { minChars := minChars, maxChars := maxChars, idleMs := idleMs,
         joiner := joiner }

/-- A concrete environment used to instantiate theorems with hypotheses:
three registered providers plus the internal sentinel, a telegram plugin
advertising a 4096 chunk limit and coalesce defaults, and a text-limit
resolver that returns the fallback (or 4000 without one). -/
def telegramTestPlugin : ProviderPlugin where
  outbound := some { textChunkLimit := some 4096 }
  streaming := some
    { blockStreamingCoalesceDefaults :=
        some { minChars := some 100, idleMs := some 250 } }

def testEnv : Env where
  providerIds := ["telegram", "discord", "slack"]
  internalMessageProvider := "internal"
  normalizeProviderId := fun s => s
  getProviderPlugin := fun s =>
    if s = "telegram" then some telegramTestPlugin else none
  normalizeAccountId := fun a => a.getD "default"
  resolveTextChunkLimit := fun _ _ _ fb => fb.getD 4000

/-- The concrete environment with the text-limit resolver pinned to a
given constant hard limit. -/
def limitEnv (l : ℤ) : Env :=
  { testEnv with resolveTextChunkLimit := fun _ _ _ _ => l }

/-- A `blockStreamingChunk` block configuring only `maxChars = 1200`. -/
def chunkMax1200 : BlockStreamingChunkConfig where
  minChars := none
  maxChars := some 1200
  breakPreference := none

/-- A configuration whose agent defaults configure only
`blockStreamingChunk.maxChars = 1200`. -/
def cfgMax1200 : ClawdbotConfig where
  agents :=
    some { defaults := some { blockStreamingChunk := some chunkMax1200, blockStreamingCoalesce := none } }
  providerSections := []

/-- A coalescing block configuring only `idleMs = 50`. -/
def coalesceIdle50 : BlockStreamingCoalesceConfig where
  minChars := none
  maxChars := none
  idleMs := some 50

/-- A coalescing block configuring only `minChars = 300`. -/
def coalesceMin300 : BlockStreamingCoalesceConfig where
  minChars := some 300
  maxChars := none
  idleMs := none

/-- An account entry carrying the `{idleMs: 50}` coalescing override. -/
def acctEntryIdle50 : AccountBlockStreamingConfig where
  blockStreamingCoalesce := some coalesceIdle50
  draftChunk := none

/-- A provider section with a provider-level `{minChars: 300}` coalescing
override and an account-level `{idleMs: 50}` override for the default
account. -/
def secC3 : ProviderBlockStreamingConfig where
  blockStreamingCoalesce := some coalesceMin300
  draftChunk := none
  accounts := some [("default", acctEntryIdle50)]

/-- A configuration carrying `secC3` for the telegram provider. -/
def cfgC3 : ClawdbotConfig where
  agents := none
  providerSections := [("telegram", secC3)]

/-- A provider section whose default-account entry exists but has no
`blockStreamingCoalesce` block, and which has none itself either. -/
def secEmptyAcct : ProviderBlockStreamingConfig where
  blockStreamingCoalesce := none
  draftChunk := none
  accounts := some [("default", { blockStreamingCoalesce := none, draftChunk := none })]

/-- A coalescing block configuring only `minChars = 111`. -/
def coalesceMin111 : BlockStreamingCoalesceConfig where
  minChars := some 111
  maxChars := none
  idleMs := none

/-- A configuration with an agent-level global coalescing default and
the `secEmptyAcct` telegram section. -/
def cfgC10 : ClawdbotConfig where
  agents :=
    some { defaults := some { blockStreamingChunk := none, blockStreamingCoalesce := some coalesceMin111 } }
  providerSections := [("telegram", secEmptyAcct)]

/-- If two provider arguments normalize to the same provider key, the
computed text limit agrees. -/
theorem chunkingTextLimit_congr (env : Env) (cfg : Option ClawdbotConfig)
    (accountId : Option String) {p q : Option String}
    (h : normalizeChunkProvider env p = normalizeChunkProvider env q) :
    chunkingTextLimit env cfg p accountId =
      chunkingTextLimit env cfg q accountId := by
  unfold chunkingTextLimit
  rw [h]

/-- The chunking resolver reads its provider argument only through
`normalizeChunkProvider`. -/
theorem resolveBlockStreamingChunking_congr (env : Env)
    (cfg : Option ClawdbotConfig) (accountId : Option String)
    {p q : Option String}
    (h : normalizeChunkProvider env p = normalizeChunkProvider env q) :
    resolveBlockStreamingChunking env cfg p accountId =
      resolveBlockStreamingChunking env cfg q accountId := by
  unfold resolveBlockStreamingChunking
  rw [chunkingTextLimit_congr env cfg accountId h]

/-- The coalescing resolver reads its provider argument only through
`normalizeChunkProvider`. -/
theorem resolveBlockStreamingCoalescing_congr (env : Env)
    (cfg : Option ClawdbotConfig) (accountId : Option String)
    (chunking : Option BlockStreamingChunking) {p q : Option String}
    (h : normalizeChunkProvider env p = normalizeChunkProvider env q) :
    resolveBlockStreamingCoalescing env cfg p accountId chunking =
      resolveBlockStreamingCoalescing env cfg q accountId chunking := by
  unfold resolveBlockStreamingCoalescing
  rw [h, chunkingTextLimit_congr env cfg accountId h]

/-- C1: for every configuration snapshot, provider string and account
identifier, the outputs of the chunking, Telegram-draft-chunking and
coalescing resolvers satisfy `minChars ≤ maxChars ≤ hardLimit`, where
the hard limit is the value the external text-limit resolver returns
for that call, assumed positive. -/
theorem claim_C1_min_le_max_le_hardLimit (env : Env)
    (cfg : Option ClawdbotConfig) (provider accountId : Option String)
    (chunking : Option BlockStreamingChunking)
    (hchunk : 0 < chunkingTextLimit env cfg provider accountId)
    (htg : 0 < telegramTextLimit env cfg accountId) :
    ((resolveBlockStreamingChunking env cfg provider accountId).minChars ≤
        (resolveBlockStreamingChunking env cfg provider accountId).maxChars ∧
      (resolveBlockStreamingChunking env cfg provider accountId).maxChars ≤
        chunkingTextLimit env cfg provider accountId) ∧
    ((resolveTelegramDraftStreamingChunking env cfg accountId).minChars ≤
        (resolveTelegramDraftStreamingChunking env cfg accountId).maxChars ∧
      (resolveTelegramDraftStreamingChunking env cfg accountId).maxChars ≤
        telegramTextLimit env cfg accountId) ∧
    (∀ r, resolveBlockStreamingCoalescing env cfg provider accountId chunking =
        some r →
      r.minChars ≤ r.maxChars ∧
        r.maxChars ≤ chunkingTextLimit env cfg provider accountId) := by
  refine ⟨?_, ?_, ?_⟩
  · simp only [resolveBlockStreamingChunking]
    omega
  · simp only [resolveTelegramDraftStreamingChunking]
    omega
  · intro r hr
    simp only [resolveBlockStreamingCoalescing, Option.some.injEq] at hr
    subst hr
    simp only
    omega

/-- C1 witness at the concrete test environment with no configuration. -/
theorem claim_C1_witness :
    0 < chunkingTextLimit testEnv none none none ∧
    0 < telegramTextLimit testEnv none none ∧
    ((resolveBlockStreamingChunking testEnv none none none).minChars ≤
        (resolveBlockStreamingChunking testEnv none none none).maxChars ∧
      (resolveBlockStreamingChunking testEnv none none none).maxChars ≤
        chunkingTextLimit testEnv none none none) :=
  ⟨by decide, by decide,
    (claim_C1_min_le_max_le_hardLimit testEnv none none none none
      (by decide) (by decide)).1⟩

/-- C9 (implicit): for every input — including a non-positive hard
limit and fractional configured values — all three resolvers return
`1 ≤ minChars ≤ maxChars` and the coalescing `idleMs` is `≥ 0`; when
the hard limit is below 1 the resolved `maxChars` is forced up to 1,
exceeding the hard limit, so `maxChars ≤ hardLimit` needs the
hypothesis `1 ≤ hardLimit`. -/
theorem claim_C9_total_safety_bounds (env : Env)
    (cfg : Option ClawdbotConfig) (provider accountId : Option String)
    (chunking : Option BlockStreamingChunking) :
    (1 ≤ (resolveBlockStreamingChunking env cfg provider accountId).minChars ∧
      (resolveBlockStreamingChunking env cfg provider accountId).minChars ≤
        (resolveBlockStreamingChunking env cfg provider accountId).maxChars) ∧
    (1 ≤ (resolveTelegramDraftStreamingChunking env cfg accountId).minChars ∧
      (resolveTelegramDraftStreamingChunking env cfg accountId).minChars ≤
        (resolveTelegramDraftStreamingChunking env cfg accountId).maxChars) ∧
    (∀ r, resolveBlockStreamingCoalescing env cfg provider accountId chunking =
        some r →
      1 ≤ r.minChars ∧ r.minChars ≤ r.maxChars ∧ 0 ≤ r.idleMs) ∧
    (chunkingTextLimit env cfg provider accountId < 1 →
      (resolveBlockStreamingChunking env cfg provider accountId).maxChars = 1 ∧
      chunkingTextLimit env cfg provider accountId <
        (resolveBlockStreamingChunking env cfg provider accountId).maxChars) ∧
    (telegramTextLimit env cfg accountId < 1 →
      (resolveTelegramDraftStreamingChunking env cfg accountId).maxChars = 1) ∧
    (chunkingTextLimit env cfg provider accountId < 1 →
      ∀ r, resolveBlockStreamingCoalescing env cfg provider accountId chunking =
        some r → r.maxChars = 1) := by
  refine ⟨?_, ?_, ?_, ?_, ?_, ?_⟩
  · simp only [resolveBlockStreamingChunking]
    omega
  · simp only [resolveTelegramDraftStreamingChunking]
    omega
  · intro r hr
    simp only [resolveBlockStreamingCoalescing, Option.some.injEq] at hr
    subst hr
    simp only
    omega
  · simp only [resolveBlockStreamingChunking]
    omega
  · simp only [resolveTelegramDraftStreamingChunking]
    omega
  · intro hL r hr
    simp only [resolveBlockStreamingCoalescing, Option.some.injEq] at hr
    subst hr
    simp only
    omega

/-- C9 witness at a pinned hard limit of 0: bounds hold and the
resolved `maxChars` is 1, strictly above the hard limit. -/
theorem claim_C9_witness :
    (1 ≤ (resolveBlockStreamingChunking (limitEnv 0) none none none).minChars ∧
      (resolveBlockStreamingChunking (limitEnv 0) none none none).minChars ≤
        (resolveBlockStreamingChunking (limitEnv 0) none none none).maxChars) ∧
    ((resolveBlockStreamingChunking (limitEnv 0) none none none).maxChars = 1 ∧
      chunkingTextLimit (limitEnv 0) none none none <
        (resolveBlockStreamingChunking (limitEnv 0) none none none).maxChars) :=
  ⟨(claim_C9_total_safety_bounds (limitEnv 0) none none none none).1,
    (claim_C9_total_safety_bounds (limitEnv 0) none none none none).2.2.2.1
      (by decide)⟩

/-- C4: the chunking resolver's `maxChars` is the configured max
(default 1200), floored and forced to at least 1, then capped at the
hard limit (the cap also re-forces at least 1, visible only for
non-positive hard limits); `minChars` is the configured min (default
800), floored and forced to at least 1, then reduced to `maxChars`.
With hard limit 500, configured max 1200 and no configured min, the
result is `maxChars = 500` and `minChars = 500`. -/
theorem claim_C4_chunking_clamp_formula (env : Env)
    (cfg : Option ClawdbotConfig) (provider accountId : Option String) :
    (resolveBlockStreamingChunking env cfg provider accountId).maxChars =
      max 1 (min
        (max 1 ⌊((agentChunkCfg cfg).bind (·.maxChars)).getD DEFAULT_BLOCK_STREAM_MAX⌋)
        (chunkingTextLimit env cfg provider accountId)) ∧
    (1 ≤ chunkingTextLimit env cfg provider accountId →
      (resolveBlockStreamingChunking env cfg provider accountId).maxChars =
        min
          (max 1 ⌊((agentChunkCfg cfg).bind (·.maxChars)).getD DEFAULT_BLOCK_STREAM_MAX⌋)
          (chunkingTextLimit env cfg provider accountId)) ∧
    (resolveBlockStreamingChunking env cfg provider accountId).minChars =
      min
        (max 1 ⌊((agentChunkCfg cfg).bind (·.minChars)).getD DEFAULT_BLOCK_STREAM_MIN⌋)
        (resolveBlockStreamingChunking env cfg provider accountId).maxChars ∧
    (chunkingTextLimit env cfg provider accountId = 500 →
      (agentChunkCfg cfg).bind (·.maxChars) = some 1200 →
      (agentChunkCfg cfg).bind (·.minChars) = none →
      (resolveBlockStreamingChunking env cfg provider accountId).maxChars = 500 ∧
      (resolveBlockStreamingChunking env cfg provider accountId).minChars = 500) := by
  refine ⟨rfl, ?_, rfl, ?_⟩
  · intro hL
    simp only [resolveBlockStreamingChunking]
    omega
  · intro hL hmax hmin
    simp only [resolveBlockStreamingChunking, hL, hmax, hmin, Option.getD_some]
    norm_num [DEFAULT_BLOCK_STREAM_MIN]

/-- C4 witness: hard limit pinned to 500 with configured max 1200 and
no configured min yields 500/500. -/
theorem claim_C4_witness :
    chunkingTextLimit (limitEnv 500) (some cfgMax1200) none none = 500 ∧
    (agentChunkCfg (some cfgMax1200)).bind (·.maxChars) = some 1200 ∧
    (agentChunkCfg (some cfgMax1200)).bind (·.minChars) = none ∧
    ((resolveBlockStreamingChunking (limitEnv 500) (some cfgMax1200) none none).maxChars = 500 ∧
      (resolveBlockStreamingChunking (limitEnv 500) (some cfgMax1200) none none).minChars = 500) :=
  ⟨rfl, rfl, rfl,
    (claim_C4_chunking_clamp_formula (limitEnv 500) (some cfgMax1200) none
      none).2.2.2 rfl rfl rfl⟩

/-- C8: the Telegram draft resolver with an absent configuration
snapshot returns `{minChars := 200, maxChars := 800, breakPreference :=
paragraph}` provided the Telegram hard limit is at least 800; its
built-in 200/800 defaults differ from the general resolver's
800/1200. -/
theorem claim_C8_telegram_draft_defaults (env : Env)
    (accountId : Option String)
    (h : 800 ≤ telegramTextLimit env none accountId) :
    resolveTelegramDraftStreamingChunking env none accountId =
      { minChars := 200, maxChars := 800,
        breakPreference := BreakPreference.paragraph } ∧
    (DEFAULT_TELEGRAM_DRAFT_STREAM_MIN, DEFAULT_TELEGRAM_DRAFT_STREAM_MAX) ≠
      (DEFAULT_BLOCK_STREAM_MIN, DEFAULT_BLOCK_STREAM_MAX) := by
  constructor
  · simp only [resolveTelegramDraftStreamingChunking, telegramDraftCfg,
      Option.bind_none, Option.bind_eq_bind, Option.none_bind, Option.orElse_none,
      Option.getD_none, resolveBreakPreference, BlockStreamingChunking.mk.injEq]
    norm_num [DEFAULT_TELEGRAM_DRAFT_STREAM_MIN, DEFAULT_TELEGRAM_DRAFT_STREAM_MAX]
    omega
  · norm_num [DEFAULT_TELEGRAM_DRAFT_STREAM_MIN, DEFAULT_TELEGRAM_DRAFT_STREAM_MAX,
      DEFAULT_BLOCK_STREAM_MIN, DEFAULT_BLOCK_STREAM_MAX]

/-- C8 witness: the test environment's Telegram plugin advertises 4096,
so the hypothesis holds and the defaults are returned. -/
theorem claim_C8_witness :
    800 ≤ telegramTextLimit testEnv none none ∧
    resolveTelegramDraftStreamingChunking testEnv none none =
      { minChars := 200, maxChars := 800,
        breakPreference := BreakPreference.paragraph } :=
  ⟨by decide,
    (claim_C8_telegram_draft_defaults testEnv none (by decide)).1⟩

/-- C6: the coalescing result's joiner is a pure function of the
supplied chunking result's break preference and of nothing else:
sentence gives " ", newline gives "\n", anything else — including an
absent chunking argument — gives "\n\n"; the right-hand side mentions
neither the configuration nor the environment, so the coalescing
configuration content never affects the joiner. -/
theorem claim_C6_joiner_pure_function (env : Env)
    (cfg : Option ClawdbotConfig) (provider accountId : Option String)
    (chunking : Option BlockStreamingChunking) :
    (resolveBlockStreamingCoalescing env cfg provider accountId
        chunking).map (·.joiner) =
      some (joinerFor (chunking.map (·.breakPreference))) := by
  cases chunking with
  | none => rfl
  | some c => cases c.breakPreference <;> rfl

/-- C2 as frozen is false on the code: with an unrecognizable provider
string the provider key fails to normalize, yet the coalescing resolver
still returns a defined record — its body, like the source body, ends in
an unconditional return. -/
theorem claim_C2_counterexample :
    normalizeChunkProvider testEnv (some "zzz") = none ∧
    (resolveBlockStreamingCoalescing testEnv none (some "zzz") none
        none).isSome = true :=
  ⟨by decide, rfl⟩

/-- C2 amended: the coalescing resolver never returns an absent result;
for every input — in particular whenever the provider key could not be
normalized — it returns a defined `{minChars, maxChars, idleMs, joiner}`
record. -/
theorem claim_C2_amended_always_defined (env : Env)
    (cfg : Option ClawdbotConfig) (provider accountId : Option String)
    (chunking : Option BlockStreamingChunking) :
    (resolveBlockStreamingCoalescing env cfg provider accountId
        chunking).isSome = true := rfl

/-- C5: when no coalescing `maxChars` is configured at any layer, the
coalescing `maxChars` falls back to the hard limit itself, clamped to
the hard limit and floored to at least 1 (`max 1 hardLimit`); and the
chunking result's `maxChars` is never read, so changing only it never
changes the coalescing output. -/
theorem claim_C5_coalescing_max_fallback (env : Env)
    (cfg : Option ClawdbotConfig) (provider accountId : Option String)
    (chunking : Option BlockStreamingChunking) :
    (∀ (c : BlockStreamingChunking) (m m' : ℤ),
      resolveBlockStreamingCoalescing env cfg provider accountId
          (some { c with maxChars := m }) =
        resolveBlockStreamingCoalescing env cfg provider accountId
          (some { c with maxChars := m' })) ∧
    ((selectedCoalesceCfg env cfg (normalizeChunkProvider env provider)
          accountId).bind (·.maxChars) = none →
      ∀ r, resolveBlockStreamingCoalescing env cfg provider accountId
          chunking = some r →
        r.maxChars = max 1 (chunkingTextLimit env cfg provider accountId)) := by
  constructor
  · intro c m m'
    simp [resolveBlockStreamingCoalescing]
  · intro hnone r hr
    simp only [resolveBlockStreamingCoalescing, hnone, Option.getD_none,
      Option.some.injEq] at hr
    subst hr
    simp only [Int.floor_intCast]
    omega

/-- C5 witness: with no configuration, no coalescing `maxChars` is
configured anywhere and the resolved `maxChars` equals
`max 1 hardLimit`. -/
theorem claim_C5_witness :
    (selectedCoalesceCfg testEnv none (normalizeChunkProvider testEnv none)
        none).bind (·.maxChars) = none ∧
    (resolveBlockStreamingCoalescing testEnv none none none none).map
        (·.maxChars) =
      some (max 1 (chunkingTextLimit testEnv none none none)) :=
  ⟨rfl,
    congrArg some
      ((claim_C5_coalescing_max_fallback testEnv none none none none).2
        rfl _ rfl)⟩

/-- C7: a provider string whose trimmed, lowercased form is not in the
registered provider set is treated exactly like an absent provider by
both the chunking and the coalescing resolver. -/
theorem claim_C7_unrecognized_eq_absent (env : Env)
    (cfg : Option ClawdbotConfig) (accountId : Option String)
    (chunking : Option BlockStreamingChunking) (s : String)
    (h : jsToLowerCase (jsTrim s) ∉ BLOCK_CHUNK_PROVIDERS env) :
    resolveBlockStreamingChunking env cfg (some s) accountId =
      resolveBlockStreamingChunking env cfg none accountId ∧
    resolveBlockStreamingCoalescing env cfg (some s) accountId chunking =
      resolveBlockStreamingCoalescing env cfg none accountId chunking := by
  have hnorm : normalizeChunkProvider env (some s) =
      normalizeChunkProvider env none := by
    simp only [normalizeChunkProvider]
    by_cases hs : s = ""
    · simp [hs]
    · simp [hs, h]
  exact ⟨resolveBlockStreamingChunking_congr env cfg accountId hnorm,
    resolveBlockStreamingCoalescing_congr env cfg accountId chunking hnorm⟩

/-- C7 witness: "nope" is not a registered provider of the test
environment, and the resolver output matches the absent-provider
output. -/
theorem claim_C7_witness :
    jsToLowerCase (jsTrim "nope") ∉ BLOCK_CHUNK_PROVIDERS testEnv ∧
    resolveBlockStreamingChunking testEnv none (some "nope") none =
      resolveBlockStreamingChunking testEnv none none none :=
  ⟨by decide,
    (claim_C7_unrecognized_eq_absent testEnv none none none "nope"
      (by decide)).1⟩

/-- C3: when the account entry for the normalized account id has its own
`blockStreamingCoalesce` block `{idleMs: 50}` and the provider level has
`{minChars: 300}`, the account block fully shadows the provider block:
the result's `idleMs` is 50 and its `minChars` falls through the
plugin-streaming / chunking / built-in-800 chain — the provider's 300
appears nowhere in the formula. -/
theorem claim_C3_account_override_shadows (env : Env) (c : ClawdbotConfig)
    (provider accountId : Option String)
    (chunking : Option BlockStreamingChunking) (pk : String)
    (sec : ProviderBlockStreamingConfig)
    (entry : AccountBlockStreamingConfig)
    (hk : normalizeChunkProvider env provider = some pk)
    (hsec : c.providerSections.lookup pk = some sec)
    (hacct : sec.accounts.bind
        (List.lookup (env.normalizeAccountId accountId)) = some entry)
    (hblock : entry.blockStreamingCoalesce = some coalesceIdle50)
    (hprov : sec.blockStreamingCoalesce = some coalesceMin300) :
    (resolveBlockStreamingCoalescing env (some c) provider accountId
        chunking).map (·.idleMs) = some 50 ∧
    (resolveBlockStreamingCoalescing env (some c) provider accountId
        chunking).map (·.minChars) =
      (resolveBlockStreamingCoalescing env (some c) provider accountId
          chunking).map
        (fun r => min
          (max 1 ⌊((coalescingProviderDefaults env
              (textChunkProviderId env (some pk))).bind (·.minChars)).getD
            ((chunking.map fun ch => (ch.minChars : ℚ)).getD
              DEFAULT_BLOCK_STREAM_MIN)⌋)
          r.maxChars) := by
  have hres : resolveProviderBlockStreamingCoalesce env (some c) (some pk)
      accountId = some coalesceIdle50 := by
    simp [resolveProviderBlockStreamingCoalesce, hsec, hacct, hblock,
      Option.orElse]
  have hsel : selectedCoalesceCfg env (some c) (some pk) accountId =
      some coalesceIdle50 := by
    simp [selectedCoalesceCfg, hres, Option.orElse]
  constructor
  · simp [resolveBlockStreamingCoalescing, hk, hsel, coalesceIdle50]
  · simp [resolveBlockStreamingCoalescing, hk, hsel, coalesceIdle50]

/-- C3 witness: concrete configuration with the account-level
`{idleMs: 50}` and provider-level `{minChars: 300}` overrides on the
telegram provider; the plugin-streaming default 100 wins the `minChars`
chain. -/
theorem claim_C3_witness :
    normalizeChunkProvider testEnv (some "telegram") = some "telegram" ∧
    (resolveBlockStreamingCoalescing testEnv (some cfgC3) (some "telegram")
        none none).map (·.idleMs) = some 50 ∧
    (resolveBlockStreamingCoalescing testEnv (some cfgC3) (some "telegram")
        none none).map (·.minChars) =
      (resolveBlockStreamingCoalescing testEnv (some cfgC3) (some "telegram")
          none none).map
        (fun r => min
          (max 1 ⌊((coalescingProviderDefaults testEnv
              (textChunkProviderId testEnv (some "telegram"))).bind
              (·.minChars)).getD
            (((none : Option BlockStreamingChunking).map
                fun ch => (ch.minChars : ℚ)).getD
              DEFAULT_BLOCK_STREAM_MIN)⌋)
          r.maxChars) := by
  have h := claim_C3_account_override_shadows testEnv cfgC3 (some "telegram")
    none none "telegram" secC3 acctEntryIdle50 (by decide) rfl rfl rfl rfl
  exact ⟨by decide, h.1, h.2⟩

/-- C10 (implicit): account-level shadowing is triggered only by the
presence of the account entry's own `blockStreamingCoalesce` block —
when the account entry contributes no such block the provider-level
block is used; the agent-level global coalescing default is used exactly
when the provider/account resolution produced nothing. -/
theorem claim_C10_override_fallback_chain (env : Env) (c : ClawdbotConfig)
    (pk : String) (accountId : Option String)
    (sec : ProviderBlockStreamingConfig)
    (hsec : c.providerSections.lookup pk = some sec) :
    ((sec.accounts.bind (List.lookup (env.normalizeAccountId accountId))).bind
        (·.blockStreamingCoalesce) = none →
      resolveProviderBlockStreamingCoalesce env (some c) (some pk) accountId =
        sec.blockStreamingCoalesce) ∧
    (resolveProviderBlockStreamingCoalesce env (some c) (some pk) accountId =
        none →
      selectedCoalesceCfg env (some c) (some pk) accountId =
        agentCoalesceCfg (some c)) ∧
    (∀ b, resolveProviderBlockStreamingCoalesce env (some c) (some pk)
        accountId = some b →
      selectedCoalesceCfg env (some c) (some pk) accountId = some b) := by
  refine ⟨?_, ?_, ?_⟩
  · intro hnone
    simp [resolveProviderBlockStreamingCoalesce, hsec, hnone, Option.orElse]
  · intro hres
    simp [selectedCoalesceCfg, hres, Option.orElse]
  · intro b hres
    simp [selectedCoalesceCfg, hres, Option.orElse]

/-- C10 witness: in `cfgC10` the telegram default-account entry exists
without a coalescing block and the provider level has none either, so
resolution falls back to the agent-level global default. -/
theorem claim_C10_witness :
    (secEmptyAcct.accounts.bind
        (List.lookup (testEnv.normalizeAccountId none))).bind
      (·.blockStreamingCoalesce) = none ∧
    resolveProviderBlockStreamingCoalesce testEnv (some cfgC10)
      (some "telegram") none = none ∧
    selectedCoalesceCfg testEnv (some cfgC10) (some "telegram") none =
      agentCoalesceCfg (some cfgC10) := by
  have h := claim_C10_override_fallback_chain testEnv cfgC10 "telegram" none
    secEmptyAcct (by decide)
  have h1 : resolveProviderBlockStreamingCoalesce testEnv (some cfgC10)
      (some "telegram") none = none := (h.1 (by decide)).trans rfl
  exact ⟨by decide, h1, h.2.1 h1⟩

end Clawdbot
